import Mathlib

/-!
Verification development for the "Social Video AI Transcriber" repository:
a browser tool that scans a TikTok/Facebook channel through a scraping
backend, lets an operator attach an audio URL per video, and sequentially
transcribes each audio file with the Gemini model.

The embedding below translates the relevant TypeScript into Lean:

* `services/geminiService.ts` — `transcribeAudioWithGemini`, modelled as a
  pure function of the credential and of the outcome of the one upstream
  API call (the call itself is an external collaborator; its outcome is a
  parameter).  The `Nat` component counts upstream calls issued.
* `services/apifyService.ts` — the two raw-item normalisation mappers and
  the TikTok handle extraction.  JavaScript `??` is `Option.getD`, `||` on
  strings and `if (x)` truthiness are made explicit (a string is falsy
  exactly when it is empty / absent; a number is falsy exactly when 0).
  `Date.now()` and `Date.toISOString` are platform builtins, passed as
  parameters.
* the root component (`App.tsx`) — `handleScan`'s platform dispatch,
  `handleTranscribe`'s sequential loop and `handleRetry`, modelled as
  explicit state passing over the per-video `TranscriptState` map and the
  durable `TranscriptCache`.  Both maps are keyed by `webVideoUrl`; in the
  TypeScript they are objects whose absent keys are `undefined`, and every
  membership test is a truthiness test, so the cache and the mp3-link map
  are modelled as total functions `String → String` with `""` standing for
  "absent or empty" (JS `undefined` and `""` are both falsy), and the
  per-video state map as `String → Option TranscriptEntry`.
  The download (`getBase64FromUrl`) and the Gemini call are external; one
  combined outcome per item is supplied by an `AttemptResult` oracle.
  The cancellation flag `stopRequest` is read at discrete points of the
  loop: at the top of iteration `i` (observation `2*i`) and before the
  inter-item delay (observation `2*i+1`); it is modelled as a function
  from observation index to `Bool`.
-/

/-! ## String helpers (substring and case-insensitive substring tests) -/

/-- `charsPre needle hay` : `needle` is an initial run of `hay` (char lists). -/
def charsPre : List Char → List Char → Bool
  | [], _ => true
  | _ :: _, [] => false
  | a :: as, b :: bs => a == b && charsPre as bs

/-- `charsContain needle hay` : `needle` occurs contiguously inside `hay`. -/
def charsContain (needle : List Char) : List Char → Bool
  | [] => charsPre needle []
  | b :: bs => charsPre needle (b :: bs) || charsContain needle bs

/-- JavaScript `hay.includes(needle)`. -/
def strContains (hay needle : String) : Bool :=
  charsContain needle.data hay.data

/-- JavaScript `String.prototype.toLowerCase` (per-character lowering;
written over the char list so the kernel can evaluate it). -/
def strToLower (s : String) : String := String.mk (s.data.map Char.toLower)

/-- Whitespace stripped by `String.prototype.trim`. -/
def isTrimSpace (c : Char) : Bool := c == ' ' || c == '\t' || c == '\n' || c == '\r'

/-- JavaScript `String.prototype.trim`. -/
def strTrim (s : String) : String :=
  String.mk (((s.data.dropWhile isTrimSpace).reverse.dropWhile isTrimSpace).reverse)

/-- Case-insensitive substring test, as a JS regex with the `i` flag. -/
def strContainsCI (hay needle : String) : Bool :=
  charsContain (strToLower needle).data (strToLower hay).data

/-! ## Transcriber: `transcribeAudioWithGemini` (services/geminiService.ts)

The upstream `generateContent` call is external.  Its outcome is either a
response carrying `response.text` (with `""` for an absent transcript, the
falsy case of `if (!transcript)`) or a thrown error carrying a message. -/

/-- Outcome of the one upstream Gemini API call. -/
inductive GeminiOutcome where
  | response (text : String)
  | callError (msg : String)
deriving DecidableEq

/-- Message of the `throw` guarding a missing credential (line 16). -/
def GEMINI_KEY_MSG : String := "Google AI API Key is required."

/-- Message thrown when the response carries no transcript (line 42). -/
def GEMINI_EMPTY_MSG : String := "Gemini không trả về lời thoại."

/-- Quota-exceeded message (line 54). -/
def GEMINI_QUOTA_MSG : String :=
  "Đã đạt giới hạn quota của Google AI (thường là 15 yêu cầu/phút). Vui lòng đợi một lát rồi thử lại."

/-- Invalid-credential message (line 58). -/
def GEMINI_INVALID_KEY_MSG : String :=
  "Google AI API Key được cung cấp không hợp lệ. Vui lòng kiểm tra lại key của bạn."

/-- The `catch` block of `transcribeAudioWithGemini` (lines 47-63): classify
an error message into quota / invalid credential / verbatim forwarding. -/
def classifyGeminiError (errorMessage : String) : String :=
  if strContains errorMessage "429" || strContainsCI errorMessage "rate limit"
      || strContainsCI errorMessage "quota" then
    GEMINI_QUOTA_MSG
  else if strContainsCI errorMessage "API_KEY_INVALID" || strContains errorMessage "400" then
    GEMINI_INVALID_KEY_MSG
  else
    errorMessage

/-- `transcribeAudioWithGemini` (services/geminiService.ts, lines 10-64).
Returns the settled promise (`Except`) together with the number of upstream
API calls issued (0 or 1).  The missing-credential throw happens before the
`try`, so it is not classified; the missing-transcript throw happens inside
the `try`, so it passes through the `catch` classifier. -/
def transcribeAudioWithGemini (googleApiKey : String) (outcome : GeminiOutcome) :
    Except String String × Nat :=
  if googleApiKey = "" then
    (Except.error GEMINI_KEY_MSG, 0)
  else
    match outcome with
    | GeminiOutcome.response t =>
        if t = "" then (Except.error (classifyGeminiError GEMINI_EMPTY_MSG), 1)
        else (Except.ok t, 1)
    | GeminiOutcome.callError msg => (Except.error (classifyGeminiError msg), 1)

/-! ## `handleScan` platform dispatch (App.tsx, lines 101-129) -/

/-- The two supported platforms. -/
inductive Platform where
  | tiktok
  | facebook
deriving DecidableEq

/-- The unsupported-URL message thrown at line 117. -/
def UNSUPPORTED_URL_MSG : String :=
  "URL không được hỗ trợ. Vui lòng nhập URL của kênh TikTok hoặc Facebook."

/-- Platform resolution of `handleScan` (lines 108-118): substring match on
the trimmed, lower-cased channel URL. -/
def resolvePlatform (channelUrl : String) : Option Platform :=
  let trimmedUrl := strToLower (strTrim channelUrl)
  if strContains trimmedUrl "tiktok.com" then some Platform.tiktok
  else if strContains trimmedUrl "facebook.com" || strContains trimmedUrl "fb.com" then
    some Platform.facebook
  else none

/-- The dispatch portion of `handleScan`: which Channel Lister variant is
invoked, with the fetch abstracted to a call count.  An unsupported URL
throws before either `fetchTikTokData` or `fetchFacebookData` runs, so the
count of Channel Lister calls is 0 in that branch and 1 otherwise. -/
def handleScanDispatch (channelUrl : String) : Except String Platform × Nat :=
  match resolvePlatform channelUrl with
  | some p => (Except.ok p, 1)
  | none => (Except.error UNSUPPORTED_URL_MSG, 0)

/-! ## Data model: `SocialVideo` (types.ts) -/

/-- `SocialVideo.authorMeta`. -/
structure AuthorMeta where
  name : String
  nickName : String
  avatar : String
deriving DecidableEq

/-- `SocialVideo.videoMeta`.  `duration` is a JS number that the Facebook
mapper divides by 1000, so it is embedded as a rational. -/
structure VideoMeta where
  duration : Rat
  height : Int
  width : Int
deriving DecidableEq

/-- `SocialVideo.musicMeta`. -/
structure MusicMeta where
  musicName : String
  musicAuthor : String
  musicOriginal : Bool
deriving DecidableEq

/-- The normalized video record (types.ts, lines 1-26). -/
structure SocialVideo where
  id : String
  webVideoUrl : String
  text : String
  createTime : Int
  createTimeISO : String
  authorMeta : AuthorMeta
  diggCount : Int
  commentCount : Int
  shareCount : Int
  playCount : Int
  videoMeta : VideoMeta
  musicMeta : MusicMeta
deriving DecidableEq

/-! ## Channel Lister normalisation (services/apifyService.ts)

Raw actor items are `any`-typed JS objects; every field read by the mappers
is embedded as an `Option` field (`none` = absent/undefined). -/

/-- Raw `item.authorMeta` of a TikTok actor item. -/
structure RawAuthorMeta where
  name : Option String
  nickName : Option String
  avatar : Option String
deriving DecidableEq

/-- Raw `item.videoMeta` of a TikTok actor item. -/
structure RawVideoMeta where
  duration : Option Rat
  height : Option Int
  width : Option Int
deriving DecidableEq

/-- Raw `item.musicMeta` of a TikTok actor item. -/
structure RawMusicMeta where
  musicName : Option String
  musicAuthor : Option String
  musicOriginal : Option Bool
deriving DecidableEq

/-- Raw TikTok actor item (the fields read at lines 17-44). -/
structure RawTikTokItem where
  id : Option String
  webVideoUrl : Option String
  text : Option String
  createTime : Option Int
  createTimeISO : Option String
  authorMeta : Option RawAuthorMeta
  diggCount : Option Int
  commentCount : Option Int
  shareCount : Option Int
  playCount : Option Int
  videoMeta : Option RawVideoMeta
  musicMeta : Option RawMusicMeta
deriving DecidableEq

/-- `mapTikTokItemToSocialVideo` (lines 17-44).  `rand` stands for the
`Math.random()` suffix of the fallback id; `dateToISO` for
`new Date(ms).toISOString()`.  JS `a ?? b` is `Option.getD` /
`Option.bind` for the `?.` chains. -/
def mapTikTokItemToSocialVideo (rand : String) (dateToISO : Int → String)
    (item : RawTikTokItem) : SocialVideo :=
  { id := item.id.getD (item.webVideoUrl.getD ("fallback-" ++ rand))
    webVideoUrl := item.webVideoUrl.getD ""
    text := item.text.getD ""
    createTime := item.createTime.getD 0
    createTimeISO := item.createTimeISO.getD (dateToISO 0)
    authorMeta :=
      { name := (item.authorMeta.bind (fun a => a.name)).getD "Unknown"
        nickName := (item.authorMeta.bind (fun a => a.nickName)).getD
          ((item.authorMeta.bind (fun a => a.name)).getD "Unknown")
        avatar := (item.authorMeta.bind (fun a => a.avatar)).getD "" }
    diggCount := item.diggCount.getD 0
    commentCount := item.commentCount.getD 0
    shareCount := item.shareCount.getD 0
    playCount := item.playCount.getD 0
    videoMeta :=
      { duration := (item.videoMeta.bind (fun v => v.duration)).getD 0
        height := (item.videoMeta.bind (fun v => v.height)).getD 0
        width := (item.videoMeta.bind (fun v => v.width)).getD 0 }
    musicMeta :=
      { musicName := (item.musicMeta.bind (fun m => m.musicName)).getD "N/A"
        musicAuthor := (item.musicMeta.bind (fun m => m.musicAuthor)).getD "N/A"
        musicOriginal := (item.musicMeta.bind (fun m => m.musicOriginal)).getD false } }

/-- Raw Facebook actor item (the fields read at lines 52-82; slashed JS
keys such as `playback_video/permalink_url` are renamed with underscores). -/
structure RawFacebookItem where
  video_id : Option String
  post_id : Option String
  shareable_url : Option String
  playback_video_permalink_url : Option String
  message : Option String
  creation_time : Option Int
  video_owner_name : Option String
  video_owner_profile_pic_url : Option String
  reactions_count : Option Int
  comments_count : Option Int
  shares_count : Option Int
  views_count : Option Int
  playable_duration_in_ms : Option Rat
  playback_video_height : Option Int
  playback_video_width : Option Int
  track_title : Option String
  is_original_audio_on_facebook : Option Bool
deriving DecidableEq

/-- JS `a || b` on an optional string: the left operand wins when truthy
(present and non-empty). -/
def jsOrStr (a : Option String) (b : String) : String :=
  match a with
  | some s => if s = "" then b else s
  | none => b

/-- `mapFacebookItemToSocialVideo` (lines 52-82).  `now` stands for
`Date.now()`, `dateToISO` for `new Date(ms).toISOString()`.  The JS
conditionals `item.creation_time ? … : …` and
`item.playable_duration_in_ms ? … : …` are numeric truthiness tests
(false exactly on absent or zero). -/
def mapFacebookItemToSocialVideo (now : Int) (dateToISO : Int → String)
    (item : RawFacebookItem) : SocialVideo :=
  let createTime : Int :=
    match item.creation_time with
    | some t => if t = 0 then now else t * 1000
    | none => now
  let postUrl : String :=
    jsOrStr item.shareable_url (jsOrStr item.playback_video_permalink_url "")
  { id := item.video_id.getD (item.post_id.getD postUrl)
    webVideoUrl := postUrl
    text := item.message.getD ""
    createTime := createTime
    createTimeISO := dateToISO createTime
    authorMeta :=
      { name := item.video_owner_name.getD "Unknown"
        nickName := item.video_owner_name.getD "Unknown"
        avatar := item.video_owner_profile_pic_url.getD "" }
    diggCount := item.reactions_count.getD 0
    commentCount := item.comments_count.getD 0
    shareCount := item.shares_count.getD 0
    playCount := item.views_count.getD 0
    videoMeta :=
      { duration :=
          match item.playable_duration_in_ms with
          | some ms => if ms = 0 then 0 else ms / 1000
          | none => 0
        height := item.playback_video_height.getD 0
        width := item.playback_video_width.getD 0 }
    musicMeta :=
      { musicName := item.track_title.getD "N/A"
        musicAuthor := item.video_owner_name.getD "N/A"
        musicOriginal := item.is_original_audio_on_facebook.getD false } }

/-! ## TikTok handle extraction (`fetchTikTokData`, lines 95-106)

`new URL(tiktokUrl)` and `.pathname` are platform builtins: the parse
result is a parameter — `some segs` when the URL parses, where `segs` is
`pathname.split('/')`, and `none` when the constructor throws. -/

/-- The filter at line 98: `part && part.startsWith('@')`. -/
def isAtSegment (p : String) : Bool :=
  p != "" && charsPre ['@'] p.data

/-- JS `s.substring(1)`: drop the first character. -/
def dropFirstChar (s : String) : String := String.mk (s.data.drop 1)

/-- The handle extraction of `fetchTikTokData` (lines 95-106): on a parsed
URL, the FIRST path segment starting with `@` (i.e. `pathParts[0]`),
stripped of the `@`; on a parsed URL with no such segment, the trimmed
input unchanged; on a parse failure, the trimmed input with one leading
`@` stripped when present. -/
def extractTikTokProfileName (tiktokUrl : String) (parsed : Option (List String)) : String :=
  let trimmed := strTrim tiktokUrl
  match parsed with
  | some segs =>
    match segs.filter isAtSegment with
    | p :: _ => dropFirstChar p
    | [] => trimmed
  | none =>
    if charsPre ['@'] trimmed.data then dropFirstChar trimmed else trimmed

/-- Modelled from the claim's words (not from the source): the handle is
the LAST path segment beginning with `@`, stripped of the `@`; if no such
segment exists, the trimmed input with a leading `@` stripped if present. -/
def extractTikTokProfileNameClaim (tiktokUrl : String) (parsed : Option (List String)) : String :=
  let trimmed := strTrim tiktokUrl
  let stripped := if charsPre ['@'] trimmed.data then dropFirstChar trimmed else trimmed
  match parsed with
  | some segs =>
    match (segs.filter isAtSegment).getLast? with
    | some p => dropFirstChar p
    | none => stripped
  | none => stripped

/-- The amended reading of the claim, stated as its own definition: the
FIRST `@`-segment wins; the leading-`@` strip of the fallback applies only
when the URL failed to parse. -/
def extractTikTokProfileNameAmended (tiktokUrl : String) (parsed : Option (List String)) : String :=
  let trimmed := strTrim tiktokUrl
  match parsed with
  | some segs =>
    match segs.find? isAtSegment with
    | some p => dropFirstChar p
    | none => trimmed
  | none =>
    if charsPre ['@'] trimmed.data then dropFirstChar trimmed else trimmed

/-! ## Pipeline Controller (App.tsx): per-video state, loop, retry -/

/-- Per-video micro state (`types.ts`, lines 28-33). -/
inductive TStatus where
  | idle
  | matched
  | loading
  | success
  | error
deriving DecidableEq

/-- One entry of the `TranscriptState` map: `{status, text}`. -/
structure TranscriptEntry where
  status : TStatus
  text : String
deriving DecidableEq

/-- Pointwise update of the `TranscriptState` map
(`setTranscriptStates(prev => ({ ...prev, [url]: v }))`). -/
def updMap (m : String → Option TranscriptEntry) (k : String) (v : TranscriptEntry) :
    String → Option TranscriptEntry :=
  fun u => if u = k then some v else m u

/-- Pointwise update of the durable `TranscriptCache`
(`setTranscriptCache(prev => ({ ...prev, [url]: t }))`). -/
def updCache (m : String → String) (k v : String) : String → String :=
  fun u => if u = k then v else m u

/-- Combined outcome of one download-then-transcribe attempt for one item:
either `getBase64FromUrl` rejects, or `transcribeAudioWithGemini` rejects,
or a transcript comes back.  The carried string is the `Error.message`. -/
inductive AttemptResult where
  | downloadError (msg : String)
  | transcribeError (msg : String)
  | ok (transcript : String)
deriving DecidableEq

/-- The `loading` progress text written before the download. -/
def DOWNLOAD_MSG : String := "Đang tải MP3..."

/-- The `loading` progress text written before the Gemini call. -/
def TRANSCRIBE_MSG : String := "Đang phiên âm với AI..."

/-- The sequence of `TranscriptState` writes one attempt performs for its
item, in order (App.tsx: lines 159, 163, 167, 172 for the loop body, and
identically lines 195, 199, 203, 207 for `handleRetry`). -/
def itemWrites (r : AttemptResult) : List TranscriptEntry :=
  match r with
  | AttemptResult.downloadError msg =>
      [⟨TStatus.loading, DOWNLOAD_MSG⟩, ⟨TStatus.error, "Lỗi: " ++ msg⟩]
  | AttemptResult.transcribeError msg =>
      [⟨TStatus.loading, DOWNLOAD_MSG⟩, ⟨TStatus.loading, TRANSCRIBE_MSG⟩,
       ⟨TStatus.error, "Lỗi: " ++ msg⟩]
  | AttemptResult.ok t =>
      [⟨TStatus.loading, DOWNLOAD_MSG⟩, ⟨TStatus.loading, TRANSCRIBE_MSG⟩,
       ⟨TStatus.success, t⟩]

/-- The last write of `itemWrites`: the settled per-item outcome. -/
def outcomeEntry (r : AttemptResult) : TranscriptEntry :=
  match r with
  | AttemptResult.downloadError msg => ⟨TStatus.error, "Lỗi: " ++ msg⟩
  | AttemptResult.transcribeError msg => ⟨TStatus.error, "Lỗi: " ++ msg⟩
  | AttemptResult.ok t => ⟨TStatus.success, t⟩

/-- Whether an attempt succeeded (drives `successCount++`). -/
def isOkAttempt (r : AttemptResult) : Bool :=
  match r with
  | AttemptResult.ok _ => true
  | _ => false

/-- Number of successful attempts among a list of item urls. -/
def countOk (oracle : String → AttemptResult) (urls : List String) : Nat :=
  (urls.filter (fun u => isOkAttempt (oracle u))).length

/-- `API_CALL_DELAY_MS` (App.tsx, line 146). -/
def API_CALL_DELAY_MS : Nat := 6000

/-- State threaded through `handleTranscribe`'s loop: the two maps plus
the counters the claims are about.  `delayCount` counts executed
inter-item pauses, `attempts` the per-item download-then-transcribe
attempts, `downloadCalls`/`transcribeCalls` the individual external calls. -/
structure LoopState where
  states : String → Option TranscriptEntry
  cache : String → String
  successCount : Nat
  attempts : Nat
  delayCount : Nat
  downloadCalls : Nat
  transcribeCalls : Nat

/-- Initial `LoopState` at loop entry. -/
def initLoopState (states : String → Option TranscriptEntry) (cache : String → String) :
    LoopState :=
  ⟨states, cache, 0, 0, 0, 0, 0⟩

/-- The body of one loop iteration for item `url` (App.tsx, lines 158-173):
perform the state writes of `itemWrites` in order; on success additionally
write the durable cache entry and bump `successCount`.  A transcribe call
is issued unless the download already failed. -/
def processItem (oracle : String → AttemptResult) (url : String) (s : LoopState) : LoopState :=
  { s with
    states := (itemWrites (oracle url)).foldl (fun m e => updMap m url e) s.states
    cache :=
      match oracle url with
      | AttemptResult.ok t => updCache s.cache url t
      | _ => s.cache
    successCount := s.successCount + (if isOkAttempt (oracle url) then 1 else 0)
    attempts := s.attempts + 1
    downloadCalls := s.downloadCalls + 1
    transcribeCalls := s.transcribeCalls +
      (match oracle url with
       | AttemptResult.downloadError _ => 0
       | _ => 1) }

/-- The inter-item pause (App.tsx, lines 175-177): executed exactly when
`b` — the condition `i < videosToProcess.length - 1 && !stopRequest.current`
— holds; it only spends time, recorded in `delayCount`. -/
def maybeDelay (b : Bool) (s : LoopState) : LoopState :=
  if b then { s with delayCount := s.delayCount + 1 } else s

/-- The sequential loop of `handleTranscribe` (App.tsx, lines 148-178) over
the remaining item urls, where `i` is the current index, `n` the total item
count, and `flag o` the value of `stopRequest.current` at observation `o`
(observation `2*i` = the check at line 149, observation `2*i+1` = the check
inside the delay condition at line 175). -/
def loopGo (oracle : String → AttemptResult) (flag : Nat → Bool) (n : Nat) :
    List String → Nat → LoopState → LoopState
  | [], _, s => s
  | url :: rest, i, s =>
    if flag (2 * i) then s
    else
      loopGo oracle flag n rest (i + 1)
        (maybeDelay (decide (i < n - 1) && !flag (2 * i + 1)) (processItem oracle url s))

/-- The eligibility filter of `handleTranscribe` (App.tsx, line 137):
`videos.filter(v => mp3Links[v.webVideoUrl] && !transcriptCache[v.webVideoUrl])`
with both maps read through JS truthiness. -/
def videosToProcess (mp3Links cache : String → String) (videos : List SocialVideo) :
    List SocialVideo :=
  videos.filter (fun v => mp3Links v.webVideoUrl != "" && cache v.webVideoUrl == "")

/-- `handleTranscribe` (App.tsx, lines 131-183): compute the eligible set;
when it is empty report and stop without any external call; otherwise run
the sequential loop from a fresh counter state. -/
def handleTranscribe (mp3Links cache : String → String)
    (states : String → Option TranscriptEntry) (oracle : String → AttemptResult)
    (flag : Nat → Bool) (videos : List SocialVideo) : LoopState :=
  let vtp := videosToProcess mp3Links cache videos
  if vtp.isEmpty then initLoopState states cache
  else loopGo oracle flag vtp.length (vtp.map (fun v => v.webVideoUrl)) 0
    (initLoopState states cache)

/-- Message written by `handleRetry` when the item has no audio link. -/
def NO_LINK_MSG : String := "Lỗi: Không tìm thấy link MP3."

/-- Result of `handleRetry`: the two maps, the trace of state writes made
for the retried url, and the external-call counts. -/
structure RetryResult where
  states : String → Option TranscriptEntry
  cache : String → String
  writes : List TranscriptEntry
  downloadCalls : Nat
  transcribeCalls : Nat

/-- `handleRetry` (App.tsx, lines 185-215): with no (truthy) mp3 link,
write the error entry and return at once; otherwise run the same two-phase
attempt as one loop iteration, with the same writes and the same cache
update on success. -/
def handleRetry (mp3Links : String → String) (oracle : String → AttemptResult)
    (videoToRetry : SocialVideo) (states : String → Option TranscriptEntry)
    (cache : String → String) : RetryResult :=
  let url := videoToRetry.webVideoUrl
  if mp3Links url = "" then
    ⟨updMap states url ⟨TStatus.error, NO_LINK_MSG⟩, cache,
     [⟨TStatus.error, NO_LINK_MSG⟩], 0, 0⟩
  else
    ⟨(itemWrites (oracle url)).foldl (fun m e => updMap m url e) states,
     (match oracle url with
      | AttemptResult.ok t => updCache cache url t
      | _ => cache),
     itemWrites (oracle url),
     1,
     (match oracle url with
      | AttemptResult.downloadError _ => 0
      | _ => 1)⟩

/-- Helper for concrete scenarios: a `SocialVideo` with the given id and
url and neutral remaining fields. -/
def mkVideo (id url : String) : SocialVideo :=
  ⟨id, url, "", 0, "", ⟨"", "", ""⟩, 0, 0, 0, 0, ⟨0, 0, 0⟩, ⟨"", "", false⟩⟩

/-! ## Concrete scenarios used by closed theorems and witnesses -/

/-- The message `getBase64FromUrl` throws on any fetch failure
(App.tsx, line 72). -/
def DOWNLOAD_FAIL_MSG : String :=
  "Không thể tải tệp âm thanh. Đây có thể là sự cố CORS hoặc URL không hợp lệ."

/-- Scenario: a scan returned two videos A and B. -/
def scenarioVideos : List SocialVideo := [mkVideo "A" "a", mkVideo "B" "b"]

/-- Scenario: the operator assigned an audio URL to both A and B. -/
def scenarioLinks : String → String :=
  fun u => if u = "a" || u = "b" then "https://audio.example/x.mp3" else ""

/-- Scenario: A's attempt yields "xin chào", B's download fails. -/
def scenarioOracle : String → AttemptResult :=
  fun u => if u = "a" then AttemptResult.ok "xin chào"
           else AttemptResult.downloadError DOWNLOAD_FAIL_MSG

/-- Scenario: A's download fails, B's attempt yields "xin chào". -/
def scenarioOracleRev : String → AttemptResult :=
  fun u => if u = "a" then AttemptResult.downloadError DOWNLOAD_FAIL_MSG
           else AttemptResult.ok "xin chào"

/-- The transcription run of the two-video scenario (empty cache, no
pre-existing per-video states, no cancellation). -/
def scenarioRun : LoopState :=
  handleTranscribe scenarioLinks (fun _ => "") (fun _ => none) scenarioOracle
    (fun _ => false) scenarioVideos

/-- The same run with the failing item first. -/
def scenarioRunRev : LoopState :=
  handleTranscribe scenarioLinks (fun _ => "") (fun _ => none) scenarioOracleRev
    (fun _ => false) scenarioVideos

/-- An all-absent raw Facebook item (every optional field undefined). -/
def emptyRawFacebookItem : RawFacebookItem :=
  ⟨none, none, none, none, none, none, none, none, none,
   none, none, none, none, none, none, none, none⟩

/-- An all-absent raw TikTok item (every optional field undefined). -/
def emptyRawTikTokItem : RawTikTokItem :=
  ⟨none, none, none, none, none, none, none, none, none, none, none, none⟩

/-! ## Helper lemmas about the loop machinery -/

/-- Writing the same key twice keeps only the second write. -/
theorem updMap_updMap (m : String → Option TranscriptEntry) (k : String)
    (v1 v2 : TranscriptEntry) : updMap (updMap m k v1) k v2 = updMap m k v2 := by
  funext u
  unfold updMap
  by_cases h : u = k <;> simp [h]

/-- `processItem` leaves every projection but the updated ones untouched
and collapses its state writes to the final outcome entry. -/
theorem processItem_states (oracle : String → AttemptResult) (url : String) (s : LoopState) :
    (processItem oracle url s).states = updMap s.states url (outcomeEntry (oracle url)) := by
  cases h : oracle url <;>
    simp [processItem, itemWrites, outcomeEntry, h, updMap_updMap]

theorem processItem_cache_ne (oracle : String → AttemptResult) (url : String)
    (s : LoopState) (u : String) (h : u ≠ url) :
    (processItem oracle url s).cache u = s.cache u := by
  cases ho : oracle url <;> simp [processItem, ho, updCache, h]

theorem processItem_attempts (oracle : String → AttemptResult) (url : String) (s : LoopState) :
    (processItem oracle url s).attempts = s.attempts + 1 := rfl

theorem processItem_downloadCalls (oracle : String → AttemptResult) (url : String)
    (s : LoopState) : (processItem oracle url s).downloadCalls = s.downloadCalls + 1 := rfl

theorem processItem_successCount (oracle : String → AttemptResult) (url : String)
    (s : LoopState) :
    (processItem oracle url s).successCount
      = s.successCount + (if isOkAttempt (oracle url) then 1 else 0) := rfl

theorem processItem_delayCount (oracle : String → AttemptResult) (url : String)
    (s : LoopState) : (processItem oracle url s).delayCount = s.delayCount := rfl

/-- `maybeDelay` changes only `delayCount`. -/
theorem maybeDelay_states (b : Bool) (s : LoopState) : (maybeDelay b s).states = s.states := by
  cases b <;> rfl

theorem maybeDelay_cache (b : Bool) (s : LoopState) : (maybeDelay b s).cache = s.cache := by
  cases b <;> rfl

theorem maybeDelay_attempts (b : Bool) (s : LoopState) :
    (maybeDelay b s).attempts = s.attempts := by
  cases b <;> rfl

theorem maybeDelay_downloadCalls (b : Bool) (s : LoopState) :
    (maybeDelay b s).downloadCalls = s.downloadCalls := by
  cases b <;> rfl

theorem maybeDelay_successCount (b : Bool) (s : LoopState) :
    (maybeDelay b s).successCount = s.successCount := by
  cases b <;> rfl

theorem maybeDelay_delayCount (b : Bool) (s : LoopState) :
    (maybeDelay b s).delayCount = s.delayCount + (if b then 1 else 0) := by
  cases b <;> simp [maybeDelay]

/-- `countOk` over a cons. -/
theorem countOk_cons (oracle : String → AttemptResult) (u : String) (l : List String) :
    countOk oracle (u :: l)
      = (if isOkAttempt (oracle u) then 1 else 0) + countOk oracle l := by
  by_cases h : isOkAttempt (oracle u) <;>
    simp [countOk, List.filter_cons, h, Nat.add_comm]

/-- Full run of the loop when cancellation is never requested: every
remaining item is attempted (one download each), and a pause runs after
every processed index below `n - 1`. -/
theorem loopGo_never_cancelled (oracle : String → AttemptResult) (n : Nat) :
    ∀ (rest : List String) (i : Nat) (s : LoopState),
    (loopGo oracle (fun _ => false) n rest i s).attempts = s.attempts + rest.length ∧
    (loopGo oracle (fun _ => false) n rest i s).downloadCalls
      = s.downloadCalls + rest.length ∧
    (loopGo oracle (fun _ => false) n rest i s).delayCount
      = s.delayCount + min rest.length (n - 1 - i) := by
  intro rest
  induction rest with
  | nil => intro i s; simp [loopGo]
  | cons url rest ih =>
    intro i s
    have hstep :
        loopGo oracle (fun _ => false) n (url :: rest) i s
          = loopGo oracle (fun _ => false) n rest (i + 1)
              (maybeDelay (decide (i < n - 1)) (processItem oracle url s)) := by
      simp [loopGo]
    rw [hstep]
    obtain ⟨ha, hd, hc⟩ :=
      ih (i + 1) (maybeDelay (decide (i < n - 1)) (processItem oracle url s))
    refine ⟨?_, ?_, ?_⟩
    · rw [ha, maybeDelay_attempts, processItem_attempts]
      simp [List.length_cons]
      omega
    · rw [hd, maybeDelay_downloadCalls, processItem_downloadCalls]
      simp [List.length_cons]
      omega
    · rw [hc, maybeDelay_delayCount, processItem_delayCount]
      by_cases h : i < n - 1 <;> simp [h, List.length_cons] <;> omega

/-- Run of the loop under a cancellation flag that stays unset through the
first `k` items of the remaining list and is set at the top-of-iteration
check of item `k + 1`: exactly the first `k` items are attempted, the
success count covers exactly them, their states carry the settled
outcomes, and every other key of the state map and of the cache is
untouched. -/
theorem loopGo_cancel_general (oracle : String → AttemptResult) (flag : Nat → Bool) (n : Nat) :
    ∀ (rest : List String) (k i : Nat) (s : LoopState),
    k ≤ rest.length →
    (∀ o, 2 * i ≤ o → o + 1 < 2 * i + 2 * k → flag o = false) →
    flag (2 * i + 2 * k) = true →
    (loopGo oracle flag n rest i s).attempts = s.attempts + k ∧
    (loopGo oracle flag n rest i s).successCount
      = s.successCount + countOk oracle (rest.take k) ∧
    (∀ u, u ∉ rest.take k → (loopGo oracle flag n rest i s).states u = s.states u) ∧
    (∀ u, u ∈ rest.take k →
      (loopGo oracle flag n rest i s).states u = some (outcomeEntry (oracle u))) ∧
    (∀ u, u ∉ rest.take k → (loopGo oracle flag n rest i s).cache u = s.cache u) := by
  intro rest
  induction rest with
  | nil =>
    intro k i s hk hwin hset
    have hk0 : k = 0 := Nat.le_zero.mp hk
    subst hk0
    simp [loopGo, countOk]
  | cons url rest ih =>
    intro k i s hk hwin hset
    match k with
    | 0 =>
      have hstop : flag (2 * i) = true := by simpa using hset
      have hval : loopGo oracle flag n (url :: rest) i s = s := by
        simp [loopGo, hstop]
      rw [hval]
      simp [countOk]
    | Nat.succ k' =>
      have hrun : flag (2 * i) = false := hwin (2 * i) (Nat.le_refl _) (by omega)
      have hstep :
          loopGo oracle flag n (url :: rest) i s
            = loopGo oracle flag n rest (i + 1)
                (maybeDelay (decide (i < n - 1) && !flag (2 * i + 1))
                  (processItem oracle url s)) := by
        simp [loopGo, hrun]
      set s2 := maybeDelay (decide (i < n - 1) && !flag (2 * i + 1))
        (processItem oracle url s) with hs2
      have hk' : k' ≤ rest.length := by
        simp only [List.length_cons] at hk
        omega
      have hwin' : ∀ o, 2 * (i + 1) ≤ o → o + 1 < 2 * (i + 1) + 2 * k' → flag o = false := by
        intro o h1 h2
        exact hwin o (by omega) (by omega)
      have hset' : flag (2 * (i + 1) + 2 * k') = true := by
        have harith : 2 * (i + 1) + 2 * k' = 2 * i + 2 * (k' + 1) := by omega
        rw [harith]
        exact hset
      obtain ⟨ha, hsc, hsn, hsy, hcn⟩ := ih k' (i + 1) s2 hk' hwin' hset'
      rw [hstep]
      refine ⟨?_, ?_, ?_, ?_, ?_⟩
      · rw [ha, hs2, maybeDelay_attempts, processItem_attempts]
        omega
      · rw [hsc, hs2, maybeDelay_successCount, processItem_successCount,
          List.take_succ_cons, countOk_cons]
        omega
      · intro u hu
        rw [List.take_succ_cons] at hu
        have hu1 : u ≠ url := fun h => hu (h ▸ List.mem_cons_self url (rest.take k'))
        have hu2 : u ∉ rest.take k' := fun h => hu (List.mem_cons_of_mem _ h)
        rw [hsn u hu2, hs2, congrFun (maybeDelay_states _ _) u,
          congrFun (processItem_states oracle url s) u]
        simp [updMap, hu1]
      · intro u hu
        rw [List.take_succ_cons] at hu
        by_cases hmem : u ∈ rest.take k'
        · exact hsy u hmem
        · have hu1 : u = url := by
            rcases List.mem_cons.mp hu with h | h
            · exact h
            · exact absurd h hmem
          rw [hsn u hmem, hs2, congrFun (maybeDelay_states _ _) u,
            congrFun (processItem_states oracle url s) u]
          subst hu1
          simp [updMap]
      · intro u hu
        rw [List.take_succ_cons] at hu
        have hu1 : u ≠ url := fun h => hu (h ▸ List.mem_cons_self url (rest.take k'))
        have hu2 : u ∉ rest.take k' := fun h => hu (List.mem_cons_of_mem _ h)
        rw [hcn u hu2, hs2, congrFun (maybeDelay_cache _ _) u,
          processItem_cache_ne oracle url s u hu1]

/-! ## Claim theorems -/

/-- C1: with an eligible set of N videos and cancellation never requested,
`handleTranscribe` issues exactly N download-then-transcribe attempts and
executes exactly N - 1 inter-item pauses of `API_CALL_DELAY_MS` each —
cumulative delay (N - 1) * D, none after the final item. -/
theorem handleTranscribe_no_cancel_attempts_delays
    (mp3Links cache : String → String) (states : String → Option TranscriptEntry)
    (oracle : String → AttemptResult) (videos : List SocialVideo) :
    (handleTranscribe mp3Links cache states oracle (fun _ => false) videos).attempts
      = (videosToProcess mp3Links cache videos).length ∧
    (handleTranscribe mp3Links cache states oracle (fun _ => false) videos).downloadCalls
      = (videosToProcess mp3Links cache videos).length ∧
    (handleTranscribe mp3Links cache states oracle (fun _ => false) videos).delayCount
      = (videosToProcess mp3Links cache videos).length - 1 ∧
    (handleTranscribe mp3Links cache states oracle (fun _ => false) videos).delayCount
        * API_CALL_DELAY_MS
      = ((videosToProcess mp3Links cache videos).length - 1) * API_CALL_DELAY_MS := by
  set vtp := videosToProcess mp3Links cache videos with hvtp
  have hunfold : handleTranscribe mp3Links cache states oracle (fun _ => false) videos
      = if vtp.isEmpty then initLoopState states cache
        else loopGo oracle (fun _ => false) vtp.length (vtp.map (fun v => v.webVideoUrl)) 0
          (initLoopState states cache) := rfl
  by_cases hempty : vtp.isEmpty
  · have hnil : vtp = [] := List.isEmpty_iff.mp hempty
    rw [hunfold, if_pos hempty, hnil]
    refine ⟨rfl, rfl, rfl, rfl⟩
  · obtain ⟨ha, hd, hc⟩ := loopGo_never_cancelled oracle vtp.length
      (vtp.map (fun v => v.webVideoUrl)) 0 (initLoopState states cache)
    rw [hunfold, if_neg hempty]
    rw [List.length_map] at ha hd hc
    refine ⟨by rw [ha]; simp [initLoopState], by rw [hd]; simp [initLoopState], ?_, ?_⟩
    · rw [hc]
      show 0 + min vtp.length (vtp.length - 1 - 0) = vtp.length - 1
      omega
    · rw [hc]
      show (0 + min vtp.length (vtp.length - 1 - 0)) * API_CALL_DELAY_MS
        = (vtp.length - 1) * API_CALL_DELAY_MS
      have h1 : 0 + min vtp.length (vtp.length - 1 - 0) = vtp.length - 1 := by omega
      rw [h1]

/-- C2: if the cancellation flag stays unset throughout the first k items
(1 ≤ k < N) and is set by the top-of-iteration check of item k + 1, the
loop stops before item k + 1: exactly k attempts are made, the success
count covers exactly the first k items, those k items carry their settled
success-or-error outcomes, and every other key of the per-video state map
and of the durable cache is untouched (cancellation is only observed at
the per-item boundary). -/
theorem loop_cancel_after_k_stops (oracle : String → AttemptResult) (flag : Nat → Bool)
    (states : String → Option TranscriptEntry) (cache : String → String)
    (urls : List String) (k : Nat)
    (hk1 : 1 ≤ k) (hkn : k < urls.length)
    (hwin : ∀ o, o + 1 < 2 * k → flag o = false)
    (hset : flag (2 * k) = true) :
    (loopGo oracle flag urls.length urls 0 (initLoopState states cache)).attempts = k ∧
    (loopGo oracle flag urls.length urls 0 (initLoopState states cache)).successCount
      = countOk oracle (urls.take k) ∧
    (∀ u, u ∉ urls.take k →
      (loopGo oracle flag urls.length urls 0 (initLoopState states cache)).states u
        = states u) ∧
    (∀ u, u ∈ urls.take k →
      (loopGo oracle flag urls.length urls 0 (initLoopState states cache)).states u
        = some (outcomeEntry (oracle u))) ∧
    (∀ u, u ∉ urls.take k →
      (loopGo oracle flag urls.length urls 0 (initLoopState states cache)).cache u
        = cache u) := by
  obtain ⟨ha, hsc, hsn, hsy, hcn⟩ :=
    loopGo_cancel_general oracle flag urls.length urls k 0 (initLoopState states cache)
      (Nat.le_of_lt hkn) (fun o _ h2 => hwin o (by omega))
      (by have h20 : 2 * 0 + 2 * k = 2 * k := by omega
          rw [h20]; exact hset)
  exact ⟨by rw [ha]; simp [initLoopState], by rw [hsc]; simp [initLoopState], hsn, hsy, hcn⟩

/-- Witness for C2: three items, all succeeding with transcript "t", flag
raised after item 1 completes — one attempt, one success, item 1 settled,
items 2 and 3 untouched. -/
theorem loop_cancel_after_k_stops_witness :
    (loopGo (fun _ => AttemptResult.ok "t") (fun o => decide (2 ≤ o)) 3 ["a", "b", "c"] 0
      (initLoopState (fun _ => none) (fun _ => ""))).attempts = 1 ∧
    (loopGo (fun _ => AttemptResult.ok "t") (fun o => decide (2 ≤ o)) 3 ["a", "b", "c"] 0
      (initLoopState (fun _ => none) (fun _ => ""))).successCount = 1 ∧
    (loopGo (fun _ => AttemptResult.ok "t") (fun o => decide (2 ≤ o)) 3 ["a", "b", "c"] 0
      (initLoopState (fun _ => none) (fun _ => ""))).states "a"
      = some ⟨TStatus.success, "t"⟩ ∧
    (loopGo (fun _ => AttemptResult.ok "t") (fun o => decide (2 ≤ o)) 3 ["a", "b", "c"] 0
      (initLoopState (fun _ => none) (fun _ => ""))).states "b" = none := by
  obtain ⟨ha, hsc, hsn, hsy, _⟩ :=
    loop_cancel_after_k_stops (fun _ => AttemptResult.ok "t") (fun o => decide (2 ≤ o))
      (fun _ => none) (fun _ => "") ["a", "b", "c"] 1 (by decide) (by decide)
      (by intro o h
          have ho : o = 0 := by omega
          subst ho
          rfl)
      (by rfl)
  exact ⟨ha, hsc.trans (by decide), hsy "a" (by decide), hsn "b" (by decide)⟩

/-- C3: a (non-empty, i.e. truthy) transcript cache entry under a video's
`webVideoUrl` excludes it from the eligible set regardless of the audio
assignment map, and when every video is cached `handleTranscribe` returns
at once with zero download calls and zero Transcriber calls. -/
theorem cache_hit_excluded_idempotent :
    (∀ (videos : List SocialVideo) (v : SocialVideo) (mp3Links cache : String → String),
      cache v.webVideoUrl ≠ "" → v ∉ videosToProcess mp3Links cache videos) ∧
    (∀ (videos : List SocialVideo) (mp3Links cache : String → String)
        (states : String → Option TranscriptEntry) (oracle : String → AttemptResult)
        (flag : Nat → Bool),
      (∀ v ∈ videos, cache v.webVideoUrl ≠ "") →
      handleTranscribe mp3Links cache states oracle flag videos
          = initLoopState states cache ∧
      (handleTranscribe mp3Links cache states oracle flag videos).transcribeCalls = 0 ∧
      (handleTranscribe mp3Links cache states oracle flag videos).downloadCalls = 0) := by
  constructor
  · intro videos v mp3Links cache hc hmem
    rw [videosToProcess, List.mem_filter] at hmem
    have hpred := hmem.2
    simp only [Bool.and_eq_true, bne_iff_ne, beq_iff_eq] at hpred
    exact hc hpred.2
  · intro videos mp3Links cache states oracle flag hall
    have hnil : videosToProcess mp3Links cache videos = [] := by
      rw [videosToProcess, List.filter_eq_nil_iff]
      intro v hv
      simp only [Bool.and_eq_true, bne_iff_ne, beq_iff_eq, not_and]
      intro _
      exact hall v hv
    have hh : handleTranscribe mp3Links cache states oracle flag videos
        = initLoopState states cache := by
      show (if (videosToProcess mp3Links cache videos).isEmpty
            then initLoopState states cache
            else loopGo oracle flag (videosToProcess mp3Links cache videos).length
              ((videosToProcess mp3Links cache videos).map (fun v => v.webVideoUrl)) 0
              (initLoopState states cache))
          = initLoopState states cache
      rw [hnil]
      rfl
    exact ⟨hh, by rw [hh]; rfl, by rw [hh]; rfl⟩

/-- Witness for C3: one video, already cached under its url — excluded
from the eligible set and the run makes no external call. -/
theorem cache_hit_excluded_idempotent_witness :
    (mkVideo "A" "a" ∉ videosToProcess (fun _ => "x.mp3") (fun _ => "t") [mkVideo "A" "a"]) ∧
    handleTranscribe (fun _ => "x.mp3") (fun _ => "t") (fun _ => none)
        (fun _ => AttemptResult.ok "y") (fun _ => false) [mkVideo "A" "a"]
      = initLoopState (fun _ => none) (fun _ => "t") ∧
    (handleTranscribe (fun _ => "x.mp3") (fun _ => "t") (fun _ => none)
        (fun _ => AttemptResult.ok "y") (fun _ => false) [mkVideo "A" "a"]).transcribeCalls
      = 0 := by
  obtain ⟨hh, ht, _⟩ :=
    cache_hit_excluded_idempotent.2 [mkVideo "A" "a"] (fun _ => "x.mp3") (fun _ => "t")
      (fun _ => none) (fun _ => AttemptResult.ok "y") (fun _ => false) (by decide)
  exact ⟨cache_hit_excluded_idempotent.1 [mkVideo "A" "a"] (mkVideo "A" "a")
    (fun _ => "x.mp3") (fun _ => "t") (by decide), hh, ht⟩

/-- C4: in the two-video scenario (A succeeds with "xin chào", B's download
fails) the end state is cache = \x7bA: "xin chào"\x7d, per-video state
A = success and B = error, one reported success, both items attempted; and
with the failing item first the loop still attempts both items, so a
failure never aborts the loop. -/
theorem two_video_failure_scenario :
    scenarioRun.cache "a" = "xin chào" ∧
    scenarioRun.cache "b" = "" ∧
    scenarioRun.states "a" = some ⟨TStatus.success, "xin chào"⟩ ∧
    scenarioRun.states "b" = some ⟨TStatus.error, "Lỗi: " ++ DOWNLOAD_FAIL_MSG⟩ ∧
    scenarioRun.successCount = 1 ∧
    scenarioRun.attempts = 2 ∧
    scenarioRunRev.attempts = 2 ∧
    scenarioRunRev.successCount = 1 ∧
    scenarioRunRev.states "b" = some ⟨TStatus.success, "xin chào"⟩ := by
  refine ⟨by decide, rfl, by decide, by decide, rfl, rfl, rfl, rfl, by decide⟩

/-- C5: the Transcriber's failure taxonomy in priority order — a missing
credential is rejected with zero upstream calls; an empty transcript in a
successful response forwards the generic missing-transcript message; a
"429" marker or case-insensitive "rate limit"/"quota" match yields the
quota message; otherwise an "API_KEY_INVALID" marker or "400" yields the
invalid-credential message; otherwise the message is forwarded verbatim;
and the quota message differs from both the generic and invalid-key
messages. -/
theorem gemini_error_classification :
    (∀ outcome, transcribeAudioWithGemini "" outcome = (Except.error GEMINI_KEY_MSG, 0)) ∧
    (∀ key : String, key ≠ "" →
      transcribeAudioWithGemini key (GeminiOutcome.response "")
        = (Except.error GEMINI_EMPTY_MSG, 1)) ∧
    (∀ (key msg : String), key ≠ "" →
      (strContains msg "429" || strContainsCI msg "rate limit"
        || strContainsCI msg "quota") = true →
      transcribeAudioWithGemini key (GeminiOutcome.callError msg)
        = (Except.error GEMINI_QUOTA_MSG, 1)) ∧
    (∀ (key msg : String), key ≠ "" →
      (strContains msg "429" || strContainsCI msg "rate limit"
        || strContainsCI msg "quota") = false →
      (strContainsCI msg "API_KEY_INVALID" || strContains msg "400") = true →
      transcribeAudioWithGemini key (GeminiOutcome.callError msg)
        = (Except.error GEMINI_INVALID_KEY_MSG, 1)) ∧
    (∀ (key msg : String), key ≠ "" →
      (strContains msg "429" || strContainsCI msg "rate limit"
        || strContainsCI msg "quota") = false →
      (strContainsCI msg "API_KEY_INVALID" || strContains msg "400") = false →
      transcribeAudioWithGemini key (GeminiOutcome.callError msg)
        = (Except.error msg, 1)) ∧
    GEMINI_QUOTA_MSG ≠ GEMINI_EMPTY_MSG ∧
    GEMINI_QUOTA_MSG ≠ GEMINI_INVALID_KEY_MSG := by
  have hempty : classifyGeminiError GEMINI_EMPTY_MSG = GEMINI_EMPTY_MSG := by decide
  refine ⟨?_, ?_, ?_, ?_, ?_, by decide, by decide⟩
  · intro outcome
    simp [transcribeAudioWithGemini]
  · intro key hkey
    simp [transcribeAudioWithGemini, hkey, hempty]
  · intro key msg hkey hq
    simp [transcribeAudioWithGemini, hkey, classifyGeminiError, hq]
  · intro key msg hkey hq hi
    simp [transcribeAudioWithGemini, hkey, classifyGeminiError, hq, hi]
  · intro key msg hkey hq hi
    simp [transcribeAudioWithGemini, hkey, classifyGeminiError, hq, hi]

/-- Witness for C5: a concrete instance of each branch — empty key,
empty transcript, a "429" message, a "400" message, an unclassified
message. -/
theorem gemini_error_classification_witness :
    transcribeAudioWithGemini "" (GeminiOutcome.response "hi")
      = (Except.error GEMINI_KEY_MSG, 0) ∧
    transcribeAudioWithGemini "k" (GeminiOutcome.response "")
      = (Except.error GEMINI_EMPTY_MSG, 1) ∧
    transcribeAudioWithGemini "k" (GeminiOutcome.callError "got status 429")
      = (Except.error GEMINI_QUOTA_MSG, 1) ∧
    transcribeAudioWithGemini "k" (GeminiOutcome.callError "got status 400")
      = (Except.error GEMINI_INVALID_KEY_MSG, 1) ∧
    transcribeAudioWithGemini "k" (GeminiOutcome.callError "boom")
      = (Except.error "boom", 1) := by
  obtain ⟨h1, h2, h3, h4, h5, _, _⟩ := gemini_error_classification
  exact ⟨h1 (GeminiOutcome.response "hi"), h2 "k" (by decide),
    h3 "k" "got status 429" (by decide) (by decide),
    h4 "k" "got status 400" (by decide) (by decide) (by decide),
    h5 "k" "boom" (by decide) (by decide) (by decide)⟩

/-- Counterexample for C6: a raw Facebook item with every optional field
absent (in particular `creation_time`), mapped with the clock reading
1000: the normalized timestamp is the current time 1000, not the
documented default 0. -/
theorem facebook_missing_timestamp_not_zero :
    (mapFacebookItemToSocialVideo 1000 (fun _ => "") emptyRawFacebookItem).createTime = 1000 ∧
    ¬((mapFacebookItemToSocialVideo 1000 (fun _ => "") emptyRawFacebookItem).createTime = 0) := by
  refine ⟨rfl, by decide⟩

/-- C6 (amended): every listed optional field maps to its documented
default when absent — engagement counters 0, media numerics 0,
audio-track name/author "N/A", isOriginal false — and the TikTok
timestamp defaults to 0, while the Facebook timestamp defaults to the
current clock value `now` (`Date.now()`), not 0. -/
theorem mapper_defaults_amended :
    (∀ (rand : String) (dateToISO : Int → String) (it : RawTikTokItem),
      (it.createTime = none →
        (mapTikTokItemToSocialVideo rand dateToISO it).createTime = 0) ∧
      (it.diggCount = none →
        (mapTikTokItemToSocialVideo rand dateToISO it).diggCount = 0) ∧
      (it.commentCount = none →
        (mapTikTokItemToSocialVideo rand dateToISO it).commentCount = 0) ∧
      (it.shareCount = none →
        (mapTikTokItemToSocialVideo rand dateToISO it).shareCount = 0) ∧
      (it.playCount = none →
        (mapTikTokItemToSocialVideo rand dateToISO it).playCount = 0) ∧
      (it.videoMeta.bind (fun v => v.duration) = none →
        (mapTikTokItemToSocialVideo rand dateToISO it).videoMeta.duration = 0) ∧
      (it.videoMeta.bind (fun v => v.height) = none →
        (mapTikTokItemToSocialVideo rand dateToISO it).videoMeta.height = 0) ∧
      (it.videoMeta.bind (fun v => v.width) = none →
        (mapTikTokItemToSocialVideo rand dateToISO it).videoMeta.width = 0) ∧
      (it.musicMeta.bind (fun m => m.musicName) = none →
        (mapTikTokItemToSocialVideo rand dateToISO it).musicMeta.musicName = "N/A") ∧
      (it.musicMeta.bind (fun m => m.musicAuthor) = none →
        (mapTikTokItemToSocialVideo rand dateToISO it).musicMeta.musicAuthor = "N/A") ∧
      (it.musicMeta.bind (fun m => m.musicOriginal) = none →
        (mapTikTokItemToSocialVideo rand dateToISO it).musicMeta.musicOriginal = false)) ∧
    (∀ (now : Int) (dateToISO : Int → String) (it : RawFacebookItem),
      (it.creation_time = none →
        (mapFacebookItemToSocialVideo now dateToISO it).createTime = now) ∧
      (it.reactions_count = none →
        (mapFacebookItemToSocialVideo now dateToISO it).diggCount = 0) ∧
      (it.comments_count = none →
        (mapFacebookItemToSocialVideo now dateToISO it).commentCount = 0) ∧
      (it.shares_count = none →
        (mapFacebookItemToSocialVideo now dateToISO it).shareCount = 0) ∧
      (it.views_count = none →
        (mapFacebookItemToSocialVideo now dateToISO it).playCount = 0) ∧
      (it.playable_duration_in_ms = none →
        (mapFacebookItemToSocialVideo now dateToISO it).videoMeta.duration = 0) ∧
      (it.playback_video_height = none →
        (mapFacebookItemToSocialVideo now dateToISO it).videoMeta.height = 0) ∧
      (it.playback_video_width = none →
        (mapFacebookItemToSocialVideo now dateToISO it).videoMeta.width = 0) ∧
      (it.track_title = none →
        (mapFacebookItemToSocialVideo now dateToISO it).musicMeta.musicName = "N/A") ∧
      (it.video_owner_name = none →
        (mapFacebookItemToSocialVideo now dateToISO it).musicMeta.musicAuthor = "N/A") ∧
      (it.is_original_audio_on_facebook = none →
        (mapFacebookItemToSocialVideo now dateToISO it).musicMeta.musicOriginal = false)) := by
  constructor
  · intro rand dateToISO it
    refine ⟨?_, ?_, ?_, ?_, ?_, ?_, ?_, ?_, ?_, ?_, ?_⟩ <;>
      intro h <;> simp [mapTikTokItemToSocialVideo, h]
  · intro now dateToISO it
    refine ⟨?_, ?_, ?_, ?_, ?_, ?_, ?_, ?_, ?_, ?_, ?_⟩ <;>
      intro h <;> simp [mapFacebookItemToSocialVideo, h]

/-- Witness for C6's amended theorem: the all-absent TikTok and Facebook
items with the clock at 1000. -/
theorem mapper_defaults_amended_witness :
    (mapTikTokItemToSocialVideo "r" (fun _ => "") emptyRawTikTokItem).createTime = 0 ∧
    (mapTikTokItemToSocialVideo "r" (fun _ => "") emptyRawTikTokItem).diggCount = 0 ∧
    (mapTikTokItemToSocialVideo "r" (fun _ => "") emptyRawTikTokItem).musicMeta.musicName
      = "N/A" ∧
    (mapFacebookItemToSocialVideo 1000 (fun _ => "") emptyRawFacebookItem).createTime
      = 1000 ∧
    (mapFacebookItemToSocialVideo 1000 (fun _ => "") emptyRawFacebookItem).diggCount = 0 ∧
    (mapFacebookItemToSocialVideo 1000 (fun _ => "") emptyRawFacebookItem).musicMeta.musicOriginal
      = false := by
  obtain ⟨ht, hf⟩ := mapper_defaults_amended
  obtain ⟨h1, h2, _, _, _, _, _, _, h9, _, _⟩ := ht "r" (fun _ => "") emptyRawTikTokItem
  obtain ⟨g1, g2, _, _, _, _, _, _, _, _, g11⟩ := hf 1000 (fun _ => "") emptyRawFacebookItem
  exact ⟨h1 rfl, h2 rfl, h9 rfl, g1 rfl, g2 rfl, g11 rfl⟩

/-- The head of a filtered list is its first match. -/
theorem filter_head_eq_find (p : String → Bool) (l : List String) :
    (l.filter p).head? = l.find? p := by
  induction l with
  | nil => rfl
  | cons a l ih =>
    by_cases h : p a <;> simp [List.filter_cons, List.find?_cons, h, ih]

/-- Counterexample for C7: for the URL
`https://www.tiktok.com/@first/@second` (pathname segments
`["", "@first", "@second"]`), the code extracts the FIRST `@`-segment
("first"), while the claim's last-segment rule yields "second". -/
theorem tiktok_handle_first_not_last :
    extractTikTokProfileName "https://www.tiktok.com/@first/@second"
      (some ["", "@first", "@second"]) = "first" ∧
    extractTikTokProfileNameClaim "https://www.tiktok.com/@first/@second"
      (some ["", "@first", "@second"]) = "second" ∧
    extractTikTokProfileName "https://www.tiktok.com/@first/@second"
        (some ["", "@first", "@second"])
      ≠ extractTikTokProfileNameClaim "https://www.tiktok.com/@first/@second"
        (some ["", "@first", "@second"]) := by
  refine ⟨by decide, by decide, by decide⟩

/-- C7 (amended): the extracted handle is the FIRST path segment beginning
with `@`, with the `@` stripped; if the URL parses but has no such
segment, the trimmed input is used unchanged; if the URL fails to parse,
the trimmed input is used with a leading `@` stripped if present. -/
theorem extract_profile_eq_amended (tiktokUrl : String) (parsed : Option (List String)) :
    extractTikTokProfileName tiktokUrl parsed
      = extractTikTokProfileNameAmended tiktokUrl parsed := by
  cases parsed with
  | none => rfl
  | some segs =>
    simp only [extractTikTokProfileName, extractTikTokProfileNameAmended]
    rw [← filter_head_eq_find]
    cases h : segs.filter isAtSegment <;> simp [h, List.head?]

/-- C8: a channel URL whose trimmed, lower-cased form contains neither the
TikTok marker nor either Facebook marker makes `handleScan` fail with the
unsupported-URL configuration error and issue zero Channel Lister calls. -/
theorem unsupported_url_no_network (channelUrl : String)
    (h1 : strContains (strToLower (strTrim channelUrl)) "tiktok.com" = false)
    (h2 : strContains (strToLower (strTrim channelUrl)) "facebook.com" = false)
    (h3 : strContains (strToLower (strTrim channelUrl)) "fb.com" = false) :
    handleScanDispatch channelUrl = (Except.error UNSUPPORTED_URL_MSG, 0) := by
  simp [handleScanDispatch, resolvePlatform, h1, h2, h3]

/-- Witness for C8: a YouTube URL is rejected without any network call. -/
theorem unsupported_url_no_network_witness :
    handleScanDispatch "https://youtube.com/@abc"
      = (Except.error UNSUPPORTED_URL_MSG, 0) := by
  exact unsupported_url_no_network "https://youtube.com/@abc"
    (by decide) (by decide) (by decide)

/-- C9: with an audio link present, `handleRetry` re-runs the two-phase
attempt for exactly its item — one download, a write trace beginning with
`loading` and ending in `success` or `error` — leaves every other key of
the per-video state map and of the cache unchanged, settles the item's
state to the attempt's outcome, and on success writes under the item's
url exactly the cache entry the main loop's iteration would write. -/
theorem handleRetry_two_phase_frame
    (mp3Links : String → String) (oracle : String → AttemptResult) (video : SocialVideo)
    (states : String → Option TranscriptEntry) (cache : String → String)
    (hlink : mp3Links video.webVideoUrl ≠ "")
    (herr : ∃ t, states video.webVideoUrl = some ⟨TStatus.error, t⟩) :
    (handleRetry mp3Links oracle video states cache).downloadCalls = 1 ∧
    (handleRetry mp3Links oracle video states cache).writes.head?
      = some ⟨TStatus.loading, DOWNLOAD_MSG⟩ ∧
    (∃ e, (handleRetry mp3Links oracle video states cache).writes.getLast? = some e ∧
      (e.status = TStatus.success ∨ e.status = TStatus.error)) ∧
    (∀ u, u ≠ video.webVideoUrl →
      (handleRetry mp3Links oracle video states cache).states u = states u ∧
      (handleRetry mp3Links oracle video states cache).cache u = cache u) ∧
    (handleRetry mp3Links oracle video states cache).states video.webVideoUrl
      = some (outcomeEntry (oracle video.webVideoUrl)) ∧
    (∀ t, oracle video.webVideoUrl = AttemptResult.ok t →
      (handleRetry mp3Links oracle video states cache).cache video.webVideoUrl = t ∧
      (processItem oracle video.webVideoUrl (initLoopState states cache)).cache
        video.webVideoUrl = t) := by
  have hr : handleRetry mp3Links oracle video states cache
      = ⟨(itemWrites (oracle video.webVideoUrl)).foldl
           (fun m e => updMap m video.webVideoUrl e) states,
         (match oracle video.webVideoUrl with
          | AttemptResult.ok t => updCache cache video.webVideoUrl t
          | _ => cache),
         itemWrites (oracle video.webVideoUrl), 1,
         (match oracle video.webVideoUrl with
          | AttemptResult.downloadError _ => 0
          | _ => 1)⟩ := by
    simp [handleRetry, hlink]
  rw [hr]
  refine ⟨rfl, ?_, ?_, ?_, ?_, ?_⟩
  · cases ho : oracle video.webVideoUrl <;> simp [itemWrites]
  · cases ho : oracle video.webVideoUrl <;> simp [itemWrites]
  · intro u hu
    constructor
    · cases ho : oracle video.webVideoUrl <;>
        simp [itemWrites, updMap, hu]
    · cases ho : oracle video.webVideoUrl <;>
        simp [updCache, hu]
  · cases ho : oracle video.webVideoUrl <;>
      simp [itemWrites, outcomeEntry, updMap]
  · intro t hok
    rw [hok]
    constructor
    · simp [updCache]
    · simp [processItem, hok, updCache, initLoopState]

/-- Witness for C9: retrying item "a" (in error state, with an audio link)
when the attempt succeeds with "xin". -/
theorem handleRetry_two_phase_frame_witness :
    (handleRetry (fun _ => "x.mp3") (fun _ => AttemptResult.ok "xin") (mkVideo "A" "a")
      (fun u => if u = "a" then some ⟨TStatus.error, "old"⟩ else none)
      (fun _ => "")).cache "a" = "xin" ∧
    (handleRetry (fun _ => "x.mp3") (fun _ => AttemptResult.ok "xin") (mkVideo "A" "a")
      (fun u => if u = "a" then some ⟨TStatus.error, "old"⟩ else none)
      (fun _ => "")).states "a" = some ⟨TStatus.success, "xin"⟩ ∧
    (handleRetry (fun _ => "x.mp3") (fun _ => AttemptResult.ok "xin") (mkVideo "A" "a")
      (fun u => if u = "a" then some ⟨TStatus.error, "old"⟩ else none)
      (fun _ => "")).states "q" = none ∧
    (handleRetry (fun _ => "x.mp3") (fun _ => AttemptResult.ok "xin") (mkVideo "A" "a")
      (fun u => if u = "a" then some ⟨TStatus.error, "old"⟩ else none)
      (fun _ => "")).downloadCalls = 1 := by
  obtain ⟨hd, _, _, hoff, hurl, hok⟩ :=
    handleRetry_two_phase_frame (fun _ => "x.mp3") (fun _ => AttemptResult.ok "xin")
      (mkVideo "A" "a") (fun u => if u = "a" then some ⟨TStatus.error, "old"⟩ else none)
      (fun _ => "") (by decide) ⟨"old", by decide⟩
  exact ⟨(hok "xin" rfl).1, hurl, (hoff "q" (by decide)).1.trans (by decide), hd⟩

/-- C10: a retry on a video with no (truthy) audio link writes the
missing-link error for that video only, returns at once, performs no
download and no Transcriber call, and leaves the cache and every other
video's state unchanged. -/
theorem handleRetry_missing_link
    (mp3Links : String → String) (oracle : String → AttemptResult) (video : SocialVideo)
    (states : String → Option TranscriptEntry) (cache : String → String)
    (h : mp3Links video.webVideoUrl = "") :
    (handleRetry mp3Links oracle video states cache).states video.webVideoUrl
      = some ⟨TStatus.error, NO_LINK_MSG⟩ ∧
    (∀ u, u ≠ video.webVideoUrl →
      (handleRetry mp3Links oracle video states cache).states u = states u) ∧
    (handleRetry mp3Links oracle video states cache).cache = cache ∧
    (handleRetry mp3Links oracle video states cache).writes
      = [⟨TStatus.error, NO_LINK_MSG⟩] ∧
    (handleRetry mp3Links oracle video states cache).downloadCalls = 0 ∧
    (handleRetry mp3Links oracle video states cache).transcribeCalls = 0 := by
  have hr : handleRetry mp3Links oracle video states cache
      = ⟨updMap states video.webVideoUrl ⟨TStatus.error, NO_LINK_MSG⟩, cache,
         [⟨TStatus.error, NO_LINK_MSG⟩], 0, 0⟩ := by
    simp [handleRetry, h]
  rw [hr]
  refine ⟨by simp [updMap], ?_, rfl, rfl, rfl, rfl⟩
  intro u hu
  simp [updMap, hu]

/-- Witness for C10: retrying a video whose url has no assigned link. -/
theorem handleRetry_missing_link_witness :
    (handleRetry (fun _ => "") (fun _ => AttemptResult.ok "xin") (mkVideo "A" "a")
      (fun _ => none) (fun _ => "c")).states "a" = some ⟨TStatus.error, NO_LINK_MSG⟩ ∧
    (handleRetry (fun _ => "") (fun _ => AttemptResult.ok "xin") (mkVideo "A" "a")
      (fun _ => none) (fun _ => "c")).states "q" = none ∧
    (handleRetry (fun _ => "") (fun _ => AttemptResult.ok "xin") (mkVideo "A" "a")
      (fun _ => none) (fun _ => "c")).downloadCalls = 0 := by
  obtain ⟨h1, h2, _, _, h5, _⟩ :=
    handleRetry_missing_link (fun _ => "") (fun _ => AttemptResult.ok "xin")
      (mkVideo "A" "a") (fun _ => none) (fun _ => "c") rfl
  exact ⟨h1, (h2 "q" (by decide)).trans rfl, h5⟩
